import Mathlib

/-!
Verification development for the `pacman-rl` repository (`src/main.py`).

The script wraps an Atari environment in a float-normalizing gymnasium
wrapper (`FloatObsEnv`), configures RLlib PPO, runs a training loop,
evaluates, checkpoints, persists `metadata.json`, copies Ray session logs
and stops the algorithm.  The development below gives a shallow embedding
of the data and control flow of that script: pixel values and bounds are
modelled as rationals (the real code uses float32; every quantity involved
here — uint8 values 0..255 and their quotients by 255 — is handled
monotonically by float32 division, so the rational model is faithful for
the stated range properties), the side-effecting body of the script is
modelled as the trace of events it emits, and the path arithmetic of the
save-directory setup is modelled on component lists.
-/

namespace PacmanRL

/-! ### Gymnasium environment model (`src/main.py` lines 14-32) -/

/-- Result tuple of `env.reset`: `(obs, info)`. -/
structure ResetResult where
  obs : List ℚ
  info : List (String × String)
  deriving Repr

/-- Result tuple of `env.step`: `(obs, reward, terminated, truncated, info)`. -/
structure StepResult where
  obs : List ℚ
  reward : ℚ
  terminated : Bool
  truncated : Bool
  info : List (String × String)
  deriving Repr

/-- A `gym.spaces.Box`: per-component lower and upper bounds.
The shape is the common length of the two lists. -/
structure BoxSpace where
  low : List ℚ
  high : List ℚ
  deriving Repr, DecidableEq

/-- Membership of an observation in a `Box` space: the shape matches and
every component sits between the corresponding bounds. -/
def BoxSpace.contains (s : BoxSpace) (obs : List ℚ) : Prop :=
  obs.length = s.low.length ∧ obs.length = s.high.length ∧
    ∀ i, i < obs.length →
      s.low.getD i 0 ≤ obs.getD i 0 ∧ obs.getD i 0 ≤ s.high.getD i 0

/-- The wrapped Atari environment (`gym.make("ale_py:ALE/Pacman-v5")`),
abstracted by its interface: what `reset` and `step` return and its two
spaces.  `reset` takes the `seed` and `options` keyword arguments. -/
structure GymEnv where
  reset : Option Nat → Option String → ResetResult
  step : Nat → StepResult
  observation_space : BoxSpace
  action_space : Nat

/-- The wrapper class `FloatObsEnv` holds the wrapped environment
(`self.env`), built in `__init__`. -/
structure FloatObsEnv where
  env : GymEnv

/-- Pixel normalization applied by the wrapper: `astype(np.float32) / 255.0`,
componentwise over the observation array. -/
def normalizeObs (obs : List ℚ) : List ℚ :=
  obs.map (fun v => v / 255)

/-- The wrapper's declared `observation_space` (`__init__`, lines 18-23):
a `Box` whose `low`/`high` are the original bounds cast to float32 and
divided by 255, with the original shape. -/
def FloatObsEnv.observation_space (w : FloatObsEnv) : BoxSpace where
  low := w.env.observation_space.low.map (fun v => v / 255)
  high := w.env.observation_space.high.map (fun v => v / 255)

/-- The wrapper's `action_space` (line 24): the wrapped environment's
`action_space`, unchanged. -/
def FloatObsEnv.action_space (w : FloatObsEnv) : Nat :=
  w.env.action_space

/-- `FloatObsEnv.reset` (lines 26-28): resets the wrapped environment and
returns the normalized observation together with the unchanged `info`. -/
def FloatObsEnv.reset (w : FloatObsEnv) (seed : Option Nat)
    (options : Option String) : ResetResult :=
  let r := w.env.reset seed options
  { obs := normalizeObs r.obs, info := r.info }

/-- `FloatObsEnv.step` (lines 30-32): steps the wrapped environment and
returns the normalized observation together with the unchanged reward,
termination flags and `info`. -/
def FloatObsEnv.step (w : FloatObsEnv) (action : Nat) : StepResult :=
  let r := w.env.step action
  { obs := normalizeObs r.obs
    reward := r.reward
    terminated := r.terminated
    truncated := r.truncated
    info := r.info }

/-! ### RLlib PPO configuration (`src/main.py` lines 48-72) -/

/-- The `DefaultModelConfig` passed to `rl_module` (lines 52-62). -/
structure DefaultModelConfig where
  conv_activation : String
  conv_filters : List (Nat × (Nat × Nat) × Nat)
  head_fcnet_hiddens : List Nat
  deriving Repr, DecidableEq

/-- The builder chain `PPOConfig().environment(...).env_runners(...)
.rl_module(...).training(...).evaluation(...)` recorded as a plain record
of the settings it installs. -/
structure PPOSettings where
  env_name : String
  num_env_runners : Nat
  model_config : DefaultModelConfig
  lr : ℚ
  train_batch_size_per_learner : Nat
  num_epochs : Nat
  evaluation_interval : Nat
  evaluation_num_env_runners : Nat
  deriving Repr, DecidableEq

/-- The literal configuration of `src/main.py` lines 48-72. -/
def config : PPOSettings where
  env_name := "PacmanFloat"
  num_env_runners := 2
  model_config :=
    { conv_activation := "relu"
      conv_filters := [(16, (8, 8), 4), (32, (4, 4), 2), (64, (3, 3), 1)]
      head_fcnet_hiddens := [256] }
  lr := 2 / 10000
  train_batch_size_per_learner := 200
  num_epochs := 10
  evaluation_interval := 1
  evaluation_num_env_runners := 1

/-! ### Save-directory setup (`src/main.py` lines 81-102)

Paths are modelled as lists of components; a path value also records
whether it is absolute.  `os.path.abspath` is `normpath(join(cwd, p))`;
`normpath` is the lexical collapse of `""`/`"."`/`".."` components;
`os.path.commonpath` of two absolute paths is the longest common
component prefix (with both arguments absolute it cannot raise, so the
script's `except` branch that sets `common = None` is unreachable in
this embedding). -/

/-- A path string split on the separator: `absolute` records a leading
separator, `comps` are the raw components.  The empty string is
`⟨false, []⟩`. -/
structure PyPath where
  absolute : Bool
  comps : List String
  deriving Repr, DecidableEq

/-- Python truthiness of the path string: only the empty string is falsy. -/
def PyPath.truthy (p : PyPath) : Bool :=
  p.absolute || !p.comps.isEmpty

/-- Lexical normalization of the components of an absolute path, as
`os.path.normpath` performs it: empty and `"."` components are dropped,
`".."` pops the previous component (at the root it is dropped). -/
def normComps (cs : List String) : List String :=
  cs.foldl
    (fun acc c =>
      if c = "" ∨ c = "." then acc
      else if c = ".." then acc.dropLast
      else acc ++ [c]) []

/-- Components of `os.path.abspath(p)` given the current working
directory `cwd` (an absolute, normalized component list): absolute paths
are normalized as they stand, relative ones are joined onto `cwd` first. -/
def abspath (cwd : List String) (p : PyPath) : List String :=
  if p.absolute then normComps p.comps else normComps (cwd ++ p.comps)

/-- Longest common component prefix, the core of `os.path.commonpath`
on two absolute paths. -/
def commonPrefix : List String → List String → List String
  | x :: xs, y :: ys => if x = y then x :: commonPrefix xs ys else []
  | _, _ => []

/-- The save-directory setup block (lines 81-102): prefer `SAVE_DIR` when
set and non-empty, fall back to `<project_dir>/out`; then force
`<project_dir>/out` unless `commonpath([project_dir, abspath(save_dir)])`
equals `project_dir`.  `projectDir` is the (absolute, normalized)
component list of the project source folder, `envSave` the value of the
`SAVE_DIR` environment variable (`none` when unset). -/
def saveDirSetup (projectDir cwd : List String) (envSave : Option PyPath) :
    PyPath :=
  let default_out : PyPath := ⟨true, projectDir ++ ["out"]⟩
  let save_dir : PyPath :=
    match envSave with
    | some p => if p.truthy then p else default_out
    | none => default_out
  let common := commonPrefix projectDir (abspath cwd save_dir)
  if common = projectDir then save_dir else default_out

/-! ### Evaluation result and metadata (`src/main.py` lines 133-149) -/

/-- The `env_runners` sub-dictionary of an evaluation result: the two
metrics the script reads, each possibly missing. -/
structure EnvRunnersMetrics where
  episode_return_mean : Option ℚ
  episode_len_mean : Option ℚ
  deriving Repr, DecidableEq

/-- The `evaluation` sub-dictionary of a result: its `env_runners` entry,
possibly missing. -/
structure EvaluationSection where
  env_runners : Option EnvRunnersMetrics
  deriving Repr, DecidableEq

/-- An `algo.evaluate()` result, restricted to the entries the script
reads: the `evaluation` entry, possibly missing. -/
structure EvalResult where
  evaluation : Option EvaluationSection
  deriving Repr, DecidableEq

/-- The chain `eval_result.get('evaluation', {}).get('env_runners', {})
.get('episode_return_mean')` (line 143): every missing level yields the
empty dictionary, so the final `get` yields `None` instead of raising. -/
def getEpisodeReturnMean (r : EvalResult) : Option ℚ :=
  match r.evaluation with
  | none => none
  | some ev =>
    match ev.env_runners with
    | none => none
    | some m => m.episode_return_mean

/-- The same chain for `episode_len_mean` (line 144). -/
def getEpisodeLenMean (r : EvalResult) : Option ℚ :=
  match r.evaluation with
  | none => none
  | some ev =>
    match ev.env_runners with
    | none => none
    | some m => m.episode_len_mean

/-- A JSON atom as it appears in `metadata.json`. -/
inductive JAtom where
  | null : JAtom
  | str : String → JAtom
  | num : ℚ → JAtom
  deriving Repr, DecidableEq

/-- A JSON value of `metadata.json`: an atom or a one-level object. -/
inductive JValue where
  | atom : JAtom → JValue
  | obj : List (String × JAtom) → JValue
  deriving Repr, DecidableEq

/-- Serialization of an optional metric: `None` becomes JSON `null`. -/
def optAtom : Option ℚ → JAtom
  | none => JAtom.null
  | some q => JAtom.num q

/-- The `metadata` dictionary built on lines 140-147, as the ordered list
of its key/value pairs: `checkpoint_path` is the value returned by
`algo.save`, `eval_result_summary` holds the two metrics read through the
`dict.get` chains, and `timestamp` is the ISO timestamp with `"Z"`
appended. -/
def metadata_of (checkpoint_path : String) (eval_result : EvalResult)
    (timestamp : String) : List (String × JValue) :=
  [("checkpoint_path", JValue.atom (JAtom.str checkpoint_path)),
   ("eval_result_summary", JValue.obj
      [("episode_return_mean", optAtom (getEpisodeReturnMean eval_result)),
       ("episode_len_mean", optAtom (getEpisodeLenMean eval_result))]),
   ("timestamp", JValue.atom (JAtom.str (timestamp ++ "Z")))]

/-! ### The script body as a trace of events (`src/main.py` lines 118-166)

The side-effecting tail of the script — training loop, evaluation,
checkpointing, metadata persistence, Ray-log copy and `algo.stop()` — is
modelled as the list of events it performs, in order.  The data the
external framework returns at runtime (evaluation results, the checkpoint
path, whether the metric-logging block or the Ray-log copy raises, ...)
is collected in a `RunEnv` record that the trace is a function of. -/

/-- An observable event of the script body. -/
inductive Event where
  /-- `result = algo.train()` at loop iteration `i` (line 119). -/
  | train : Nat → Event
  /-- `logger.info("=== Training iteration %d ===", i)` (line 120). -/
  | logIterHeader : Nat → Event
  /-- The five `logger.info` metric lines succeed (lines 122-126). -/
  | logMetrics : Nat → Event
  /-- The metric block raised and `logger.exception` ran (lines 127-128). -/
  | logMetricsFailure : Nat → Event
  /-- `eval_result = algo.evaluate()` (line 133). -/
  | evaluate : Event
  /-- `checkpoint_path = algo.save(save_dir)` (line 136). -/
  | save : String → Event
  /-- `logger.info("Checkpoint saved at: %s", ...)` (line 137). -/
  | logCheckpoint : String → Event
  /-- The `json.dump` of the metadata dictionary (lines 148-149). -/
  | writeMetadata : List (String × JValue) → Event
  /-- `shutil.copytree` of the Ray session directory succeeds (line 156). -/
  | copyRaySession : Event
  /-- No Ray session directory was found (line 159). -/
  | logNoRaySession : Event
  /-- The copy block raised and `logger.exception` ran (lines 160-161). -/
  | logCopyFailure : Event
  /-- `algo.stop()` (line 166). -/
  | stop : Event
  deriving Repr, DecidableEq

/-- The runtime data a single execution of the script body depends on.
`logFail i` says whether the metric-logging block raises at iteration `i`
(for instance because `result` lacks an expected key), `copyFail` whether
`shutil.copytree` raises. -/
structure RunEnv where
  logFail : Nat → Bool
  evalResult : EvalResult
  savedPath : String
  timestamp : String
  rayExists : Bool
  copyFail : Bool
  saveDir : String

/-- The hyperparameters that vary between the repository's near-duplicate
script files: the PPO settings, the training-loop iteration count and the
logging verbosity (whether per-iteration metrics are logged at all). -/
structure Hyperparams where
  settings : PPOSettings
  numIters : Nat
  verbose : Bool

/-- The hyperparameters of `src/main.py`: the configuration of lines
48-72, the `range(1)` training loop of line 118, and per-iteration metric
logging present. -/
def mainHyperparams : Hyperparams where
  settings := config
  numIters := 1
  verbose := true

/-- The events of one training-loop iteration (lines 118-128): train, log
the header, then either log the metrics or — when the block raises — log
the caught exception; the `except Exception` swallows the failure either
way. -/
def iterEvents (h : Hyperparams) (e : RunEnv) (i : Nat) : List Event :=
  [Event.train i, Event.logIterHeader i] ++
    (if h.verbose then
      (if e.logFail i then [Event.logMetricsFailure i]
       else [Event.logMetrics i])
     else [])

/-- The events of the first `n` training-loop iterations, in order. -/
def loopEvents (h : Hyperparams) (e : RunEnv) : Nat → List Event
  | 0 => []
  | n + 1 => loopEvents h e n ++ iterEvents h e n

/-- The events after the training loop (lines 133-166): evaluate, save a
checkpoint into the save directory, log its path, write `metadata.json`,
try to copy the Ray session logs (any failure is caught and logged), and
stop the algorithm. -/
def tailEvents (e : RunEnv) : List Event :=
  [Event.evaluate, Event.save e.saveDir, Event.logCheckpoint e.savedPath,
   Event.writeMetadata (metadata_of e.savedPath e.evalResult e.timestamp)] ++
    (if e.rayExists then
      (if e.copyFail then [Event.logCopyFailure] else [Event.copyRaySession])
     else [Event.logNoRaySession]) ++
    [Event.stop]

/-- The whole script body as a function of its hyperparameters: the
training loop followed by the evaluation/checkpoint/metadata/copy/stop
tail. -/
def generalScript (h : Hyperparams) (e : RunEnv) : List Event :=
  loopEvents h e h.numIters ++ tailEvents e

/-- The script body of `src/main.py`: the parameterized script at the
hyperparameters of lines 48-72 and 118. -/
def mainScript (e : RunEnv) : List Event :=
  generalScript mainHyperparams e

/-- Modelled from the spec: the repository's second near-duplicate script
file, which is not present under `src/`.  The spec states the two files
"differ only in hyperparameter values (worker counts, batch sizes,
network widths, iteration counts) and trivial logging verbosity", so the
second file is the same parameterized script at some other hyperparameter
record, whose exact values the spec does not give. -/
def secondScript (h : Hyperparams) (e : RunEnv) : List Event :=
  generalScript h e

/-- Test for the four orchestration-core events of the spec's chain
iterate → train → evaluate → checkpoint → persist metadata. -/
def isCoreEvent : Event → Bool
  | Event.train _ => true
  | Event.evaluate => true
  | Event.save _ => true
  | Event.writeMetadata _ => true
  | _ => false

/-- Test for a training event. -/
def isTrain : Event → Bool
  | Event.train _ => true
  | _ => false

/-- Test for a checkpoint-save event. -/
def isSave : Event → Bool
  | Event.save _ => true
  | _ => false

/-- Number of `algo.train()` calls in a trace. -/
def countTrain (l : List Event) : Nat :=
  (l.filter isTrain).length

/-- Number of `algo.save(...)` calls in a trace. -/
def countSave (l : List Event) : Nat :=
  (l.filter isSave).length

/-! ### Concrete runtime environments used by witnesses and counterexamples -/

/-- A plain successful run: no logging failure, no Ray session directory,
an evaluation result missing its `evaluation` entry. -/
def exampleRunA : RunEnv where
  logFail := fun _ => false
  evalResult := ⟨none⟩
  savedPath := "ckpt-a"
  timestamp := "2025-01-01T00:00:00"
  rayExists := false
  copyFail := false
  saveDir := "/proj/out"

/-- A successful run with a fully populated evaluation result. -/
def exampleRunB : RunEnv where
  logFail := fun _ => false
  evalResult := ⟨some ⟨some ⟨some 3, some 120⟩⟩⟩
  savedPath := "ckpt-b"
  timestamp := "2025-01-02T00:00:00"
  rayExists := true
  copyFail := false
  saveDir := "/proj/out"

/-- A run in which both guarded blocks fail: metric logging raises at
iteration 0 and the Ray-session copy raises. -/
def exampleRunC : RunEnv where
  logFail := fun _ => true
  evalResult := ⟨some ⟨some ⟨some 5, some 100⟩⟩⟩
  savedPath := "ckpt-c"
  timestamp := "2025-02-02T00:00:00"
  rayExists := true
  copyFail := true
  saveDir := "/proj/out"

/-- Another plain successful run. -/
def exampleRunD : RunEnv where
  logFail := fun _ => false
  evalResult := ⟨some ⟨none⟩⟩
  savedPath := "ckpt-d"
  timestamp := "2025-03-03T00:00:00"
  rayExists := false
  copyFail := false
  saveDir := "/proj/out"

/-- A hyperparameter record that differs from `mainHyperparams` in worker
count, batch size, epoch count and network width only; it instantiates the
near-duplicate equivalence at a concrete second setting. -/
def otherHyperparams : Hyperparams where
  settings :=
    { config with
      num_env_runners := 4
      train_batch_size_per_learner := 4000
      num_epochs := 20
      model_config := { config.model_config with head_fcnet_hiddens := [512] } }
  numIters := 1
  verbose := true

/-! ### Trace lemmas -/

lemma loopEvents_filter_isCore (h : Hyperparams) (e : RunEnv) :
    ∀ n, (loopEvents h e n).filter isCoreEvent = (List.range n).map Event.train := by
  intro n
  induction n with
  | zero => simp [loopEvents]
  | succ n ih =>
    rw [loopEvents, List.filter_append, ih, List.range_succ, List.map_append]
    by_cases hv : h.verbose <;> by_cases hf : e.logFail n <;>
      simp [iterEvents, hv, hf, isCoreEvent]

lemma loopEvents_filter_isTrain (h : Hyperparams) (e : RunEnv) :
    ∀ n, (loopEvents h e n).filter isTrain = (List.range n).map Event.train := by
  intro n
  induction n with
  | zero => simp [loopEvents]
  | succ n ih =>
    rw [loopEvents, List.filter_append, ih, List.range_succ, List.map_append]
    by_cases hv : h.verbose <;> by_cases hf : e.logFail n <;>
      simp [iterEvents, hv, hf, isTrain]

lemma loopEvents_filter_isSave (h : Hyperparams) (e : RunEnv) :
    ∀ n, (loopEvents h e n).filter isSave = [] := by
  intro n
  induction n with
  | zero => simp [loopEvents]
  | succ n ih =>
    rw [loopEvents, List.filter_append, ih]
    by_cases hv : h.verbose <;> by_cases hf : e.logFail n <;>
      simp [iterEvents, hv, hf, isSave]

lemma tailEvents_filter_isCore (e : RunEnv) :
    (tailEvents e).filter isCoreEvent =
      [Event.evaluate, Event.save e.saveDir,
       Event.writeMetadata (metadata_of e.savedPath e.evalResult e.timestamp)] := by
  by_cases hr : e.rayExists <;> by_cases hc : e.copyFail <;>
    simp [tailEvents, hr, hc, isCoreEvent]

lemma tailEvents_filter_isTrain (e : RunEnv) :
    (tailEvents e).filter isTrain = [] := by
  by_cases hr : e.rayExists <;> by_cases hc : e.copyFail <;>
    simp [tailEvents, hr, hc, isTrain]

lemma tailEvents_filter_isSave (e : RunEnv) :
    (tailEvents e).filter isSave = [Event.save e.saveDir] := by
  by_cases hr : e.rayExists <;> by_cases hc : e.copyFail <;>
    simp [tailEvents, hr, hc, isSave]

lemma iterEvents_congr (h₁ h₂ : Hyperparams) (e : RunEnv) (i : Nat)
    (hv : h₁.verbose = h₂.verbose) : iterEvents h₁ e i = iterEvents h₂ e i := by
  rw [iterEvents, iterEvents, hv]

lemma loopEvents_congr (h₁ h₂ : Hyperparams) (e : RunEnv)
    (hv : h₁.verbose = h₂.verbose) :
    ∀ n, loopEvents h₁ e n = loopEvents h₂ e n := by
  intro n
  induction n with
  | zero => rfl
  | succ n ih => rw [loopEvents, loopEvents, ih, iterEvents_congr h₁ h₂ e n hv]

/-! ### Claim theorems -/

/-- C2: the orchestration performs its core steps in the order training
iterations (`algo.train`), then evaluation (`algo.evaluate`), then
checkpointing (`algo.save`), then metadata persistence (`metadata.json`);
restricted to those four kinds of events, every trace of the script is
exactly all the train events followed by evaluate, save and the metadata
write, so no later step of the chain ever precedes an earlier one. -/
theorem orchestration_core_order (h : Hyperparams) (e : RunEnv) :
    (generalScript h e).filter isCoreEvent =
      ((List.range h.numIters).map Event.train) ++
        [Event.evaluate, Event.save e.saveDir,
         Event.writeMetadata (metadata_of e.savedPath e.evalResult e.timestamp)] := by
  rw [generalScript, List.filter_append, loopEvents_filter_isCore,
    tailEvents_filter_isCore]

/-- C3 counterexample: in the script of `src/main.py` the training loop is
`for i in range(1)`, so on a concrete run `algo.train()` is not invoked
more than once. -/
theorem train_invocation_count_counterexample :
    ¬ 1 < countTrain (mainScript exampleRunA) := by decide

/-- C3 (amended): `algo.train()` is invoked exactly once over the course
of a run (the loop is `range(1)`); the repeated sample-and-update passes
happen inside that single call via the configured `num_epochs = 10`. -/
theorem train_invoked_exactly_once :
    (∀ e : RunEnv, countTrain (mainScript e) = 1) ∧ config.num_epochs = 10 := by
  refine ⟨fun e => ?_, rfl⟩
  rw [countTrain, mainScript, generalScript, List.filter_append,
    loopEvents_filter_isTrain, tailEvents_filter_isTrain]
  simp [mainHyperparams]

/-- C4 counterexample: on a concrete run the script does not save
checkpoints more than once; `algo.save` runs a single time, after the
training loop. -/
theorem checkpoint_save_count_counterexample :
    ¬ 1 < countSave (mainScript exampleRunB) := by decide

/-- C4 (amended): evaluation is configured to run every training
iteration (`evaluation_interval = 1`), and a checkpoint is saved exactly
once per run, after the training loop, rather than periodically during
it. -/
theorem evaluation_every_iteration_and_single_checkpoint :
    config.evaluation_interval = 1 ∧ ∀ e : RunEnv, countSave (mainScript e) = 1 := by
  refine ⟨rfl, fun e => ?_⟩
  rw [countSave, mainScript, generalScript, List.filter_append,
    loopEvents_filter_isSave, tailEvents_filter_isSave]
  simp

/-- C5: the checkpoint is produced by `algo.save(save_dir)` aimed at the
run's save directory, and the path it returns is recorded verbatim as the
`checkpoint_path` field of the persisted metadata. -/
theorem checkpoint_path_recorded_verbatim (e : RunEnv) :
    Event.save e.saveDir ∈ mainScript e ∧
    Event.writeMetadata (metadata_of e.savedPath e.evalResult e.timestamp) ∈
      mainScript e ∧
    (metadata_of e.savedPath e.evalResult e.timestamp).lookup "checkpoint_path" =
      some (JValue.atom (JAtom.str e.savedPath)) := by
  refine ⟨?_, ?_, rfl⟩ <;> simp [mainScript, generalScript, tailEvents]

/-- C6: the persisted metadata object has exactly the keys
`checkpoint_path`, `eval_result_summary` and `timestamp`; the summary has
exactly the subkeys `episode_return_mean` and `episode_len_mean`, read
through `dict.get` chains; and when the evaluation result lacks the
nested `evaluation` or `env_runners` entries both summary fields are JSON
`null` (the `get` chain returns `None`, it does not raise). -/
theorem metadata_shape_and_null_defaults (cp : String) (r : EvalResult)
    (ts : String) :
    (metadata_of cp r ts).map Prod.fst =
      ["checkpoint_path", "eval_result_summary", "timestamp"] ∧
    (metadata_of cp r ts).lookup "eval_result_summary" =
      some (JValue.obj
        [("episode_return_mean", optAtom (getEpisodeReturnMean r)),
         ("episode_len_mean", optAtom (getEpisodeLenMean r))]) ∧
    (metadata_of cp r ts).lookup "timestamp" =
      some (JValue.atom (JAtom.str (ts ++ "Z"))) ∧
    (metadata_of cp ⟨none⟩ ts).lookup "eval_result_summary" =
      some (JValue.obj
        [("episode_return_mean", JAtom.null), ("episode_len_mean", JAtom.null)]) ∧
    (metadata_of cp ⟨some ⟨none⟩⟩ ts).lookup "eval_result_summary" =
      some (JValue.obj
        [("episode_return_mean", JAtom.null), ("episode_len_mean", JAtom.null)]) :=
  ⟨rfl, rfl, rfl, rfl, rfl⟩

/-- C7 (spec-modelled second file): the two near-duplicate script files
are the same parameterized program; the second file is `generalScript` at
its own hyperparameter record, and whenever the hyperparameters that can
influence the trace at all (iteration count and logging verbosity) agree
with those of `src/main.py`, the two files produce identical traces — the
remaining differences (worker counts, batch sizes, network widths) only
parameterize the external framework. -/
theorem near_duplicate_files_equivalent (h : Hyperparams) (e : RunEnv)
    (hn : h.numIters = mainHyperparams.numIters)
    (hv : h.verbose = mainHyperparams.verbose) :
    secondScript h e = generalScript h e ∧ secondScript h e = mainScript e := by
  refine ⟨rfl, ?_⟩
  rw [secondScript, mainScript, generalScript, generalScript, hn,
    loopEvents_congr h mainHyperparams e hv]

/-- Witness for C7: at a concrete hyperparameter record differing from
`src/main.py` in worker count, batch size, epoch count and network width,
the second file's trace coincides with the first file's. -/
theorem near_duplicate_files_equivalent_witness :
    secondScript otherHyperparams exampleRunD = generalScript otherHyperparams exampleRunD ∧
    secondScript otherHyperparams exampleRunD = mainScript exampleRunD :=
  near_duplicate_files_equivalent otherHyperparams exampleRunD rfl rfl

/-- C10: a failure in the per-iteration metric-logging block or in the
Ray-session copy never aborts the run: both failures are caught and
logged, and evaluation, checkpointing, metadata persistence and
`algo.stop()` still occur in the trace. -/
theorem logging_failures_do_not_abort (e : RunEnv)
    (hlog : e.logFail 0 = true) (hray : e.rayExists = true)
    (hcopy : e.copyFail = true) :
    Event.logMetricsFailure 0 ∈ mainScript e ∧
    Event.logCopyFailure ∈ mainScript e ∧
    Event.evaluate ∈ mainScript e ∧
    Event.save e.saveDir ∈ mainScript e ∧
    Event.writeMetadata (metadata_of e.savedPath e.evalResult e.timestamp) ∈
      mainScript e ∧
    Event.stop ∈ mainScript e := by
  have hms : mainScript e =
      [Event.train 0, Event.logIterHeader 0, Event.logMetricsFailure 0,
       Event.evaluate, Event.save e.saveDir, Event.logCheckpoint e.savedPath,
       Event.writeMetadata (metadata_of e.savedPath e.evalResult e.timestamp),
       Event.logCopyFailure, Event.stop] := by
    simp [mainScript, generalScript, loopEvents, iterEvents, tailEvents,
      mainHyperparams, hlog, hray, hcopy]
  rw [hms]
  refine ⟨?_, ?_, ?_, ?_, ?_, ?_⟩ <;> simp

/-- Witness for C10: on the concrete run in which both guarded blocks
fail, all later steps still appear in the trace. -/
theorem logging_failures_do_not_abort_witness :
    Event.logMetricsFailure 0 ∈ mainScript exampleRunC ∧
    Event.logCopyFailure ∈ mainScript exampleRunC ∧
    Event.evaluate ∈ mainScript exampleRunC ∧
    Event.save exampleRunC.saveDir ∈ mainScript exampleRunC ∧
    Event.writeMetadata
      (metadata_of exampleRunC.savedPath exampleRunC.evalResult
        exampleRunC.timestamp) ∈ mainScript exampleRunC ∧
    Event.stop ∈ mainScript exampleRunC :=
  logging_failures_do_not_abort exampleRunC rfl rfl rfl

/-- C9: `FloatObsEnv.step` passes the wrapped environment's reward,
termination flags and `info` through unchanged, `FloatObsEnv.reset`
passes `info` through unchanged, and the wrapper's `action_space` is
exactly the wrapped environment's `action_space`; only the observation is
transformed. -/
theorem wrapper_preserves_frame (w : FloatObsEnv) (action : Nat)
    (seed : Option Nat) (options : Option String) :
    (w.step action).reward = (w.env.step action).reward ∧
    (w.step action).terminated = (w.env.step action).terminated ∧
    (w.step action).truncated = (w.env.step action).truncated ∧
    (w.step action).info = (w.env.step action).info ∧
    (w.reset seed options).info = (w.env.reset seed options).info ∧
    w.action_space = w.env.action_space :=
  ⟨rfl, rfl, rfl, rfl, rfl, rfl⟩

/-! ### Path lemmas for the save-directory invariant -/

lemma commonPrefix_append (xs ys : List String) :
    commonPrefix xs (xs ++ ys) = xs := by
  induction xs with
  | nil => cases ys <;> rfl
  | cons x t ih => simp [commonPrefix, ih]

lemma normComps_append_out (cs : List String) :
    normComps (cs ++ ["out"]) = normComps cs ++ ["out"] := by
  rw [normComps, normComps, List.foldl_append]
  rfl

/-- C8: after the save-directory setup block, `save_dir` always lies
inside the project source directory — for every value of the `SAVE_DIR`
environment variable (unset, empty, relative, or pointing outside the
project tree) the final value is either the validated `SAVE_DIR` or is
forced to `<project_dir>/out`, and
`commonpath([project_dir, abspath(save_dir)]) == project_dir` holds for
that final value, provided `project_dir` is a normalized absolute path
(which `os.path.dirname(os.path.abspath(__file__))` guarantees). -/
theorem saveDir_inside_project (projectDir cwd : List String)
    (envSave : Option PyPath) (hnorm : normComps projectDir = projectDir) :
    commonPrefix projectDir (abspath cwd (saveDirSetup projectDir cwd envSave)) =
      projectDir ∧
    (saveDirSetup projectDir cwd envSave = ⟨true, projectDir ++ ["out"]⟩ ∨
      ∃ p, envSave = some p ∧ saveDirSetup projectDir cwd envSave = p) := by
  have habs : abspath cwd (PyPath.mk true (projectDir ++ ["out"])) =
      projectDir ++ ["out"] := by
    rw [abspath]
    simp [normComps_append_out, hnorm]
  rw [saveDirSetup.eq_def]
  set sd : PyPath :=
    (match envSave with
      | some p => if p.truthy then p else ⟨true, projectDir ++ ["out"]⟩
      | none => ⟨true, projectDir ++ ["out"]⟩) with hsd
  by_cases hc : commonPrefix projectDir (abspath cwd sd) = projectDir
  · rw [if_pos hc]
    refine ⟨hc, ?_⟩
    match henv : envSave with
    | none => exact Or.inl rfl
    | some p =>
      by_cases ht : p.truthy
      · exact Or.inr ⟨p, rfl, by simp [ht]⟩
      · exact Or.inl (by simp [ht])
  · rw [if_neg hc]
    exact ⟨by rw [habs, commonPrefix_append], Or.inl rfl⟩

/-- Witness for C8: with project directory `/home/proj`, working
directory `/tmp` and `SAVE_DIR=data` (a relative path resolving outside
the project tree), the setup forces `save_dir` to `/home/proj/out`, which
satisfies the `commonpath` invariant. -/
theorem saveDir_inside_project_witness :
    normComps ["home", "proj"] = ["home", "proj"] ∧
    commonPrefix ["home", "proj"]
      (abspath ["tmp"]
        (saveDirSetup ["home", "proj"] ["tmp"] (some ⟨false, ["data"]⟩))) =
      ["home", "proj"] :=
  ⟨rfl,
    (saveDir_inside_project ["home", "proj"] ["tmp"]
      (some ⟨false, ["data"]⟩) rfl).1⟩

/-! ### Normalization lemmas for the observation wrapper -/

lemma getD_map_div (l : List ℚ) (i : Nat) :
    (l.map (fun v => v / 255)).getD i 0 = l.getD i 0 / 255 := by
  induction l generalizing i with
  | nil => simp
  | cons a t ih =>
    cases i with
    | zero => simp
    | succ n => simpa using ih n

lemma contains_bounds (s : BoxSpace) (obs : List ℚ)
    (h : s.contains obs) (hlow : ∀ x ∈ s.low, x = 0)
    (hhigh : ∀ x ∈ s.high, x = 255) :
    ∀ v ∈ obs, 0 ≤ v ∧ v ≤ 255 := by
  intro v hv
  obtain ⟨i, hi, rfl⟩ := List.mem_iff_getElem.mp hv
  obtain ⟨h1, h2, h3⟩ := h
  obtain ⟨hlo, hhi⟩ := h3 i hi
  have hil : i < s.low.length := h1 ▸ hi
  have hih : i < s.high.length := h2 ▸ hi
  have hl0 : s.low.getD i 0 = 0 := by
    rw [List.getD_eq_getElem _ _ hil]
    exact hlow _ (List.getElem_mem hil)
  have hh255 : s.high.getD i 0 = 255 := by
    rw [List.getD_eq_getElem _ _ hih]
    exact hhigh _ (List.getElem_mem hih)
  have hobs : obs.getD i 0 = obs[i] := List.getD_eq_getElem _ _ hi
  rw [hl0, hobs] at hlo
  rw [hh255, hobs] at hhi
  exact ⟨hlo, hhi⟩

lemma normalizeObs_range (s : BoxSpace) (obs : List ℚ)
    (h : s.contains obs) (hlow : ∀ x ∈ s.low, x = 0)
    (hhigh : ∀ x ∈ s.high, x = 255) :
    ∀ v ∈ normalizeObs obs, 0 ≤ v ∧ v ≤ 1 := by
  intro v hv
  rw [normalizeObs] at hv
  obtain ⟨w, hw, rfl⟩ := List.mem_map.mp hv
  obtain ⟨hw0, hw255⟩ := contains_bounds s obs h hlow hhigh w hw
  exact ⟨div_nonneg hw0 (by norm_num), (div_le_one (by norm_num)).mpr hw255⟩

lemma contains_normalize (s : BoxSpace) (obs : List ℚ) (h : s.contains obs) :
    (BoxSpace.mk (s.low.map (fun v => v / 255))
      (s.high.map (fun v => v / 255))).contains (normalizeObs obs) := by
  obtain ⟨h1, h2, h3⟩ := h
  refine ⟨by simp [normalizeObs, h1], by simp [normalizeObs, h2], ?_⟩
  intro i hi
  have hi' : i < obs.length := by simpa [normalizeObs] using hi
  obtain ⟨hlo, hhi⟩ := h3 i hi'
  constructor
  · show (s.low.map fun v => v / 255).getD i 0 ≤ (normalizeObs obs).getD i 0
    rw [normalizeObs, getD_map_div, getD_map_div]
    exact (div_le_div_iff_of_pos_right (by norm_num)).mpr hlo
  · show (normalizeObs obs).getD i 0 ≤ (s.high.map fun v => v / 255).getD i 0
    rw [normalizeObs, getD_map_div, getD_map_div]
    exact (div_le_div_iff_of_pos_right (by norm_num)).mpr hhi

/-- A concrete wrapped environment with two-component uint8-style
observations, used to instantiate the wrapper theorems. -/
def exampleGymEnv : GymEnv where
  reset := fun _ _ => { obs := [0, 128], info := [] }
  step := fun _ =>
    { obs := [255, 17], reward := 1, terminated := false, truncated := false,
      info := [] }
  observation_space := { low := [0, 0], high := [255, 255] }
  action_space := 5

/-- C1: `FloatObsEnv.reset` and `FloatObsEnv.step` return the wrapped
environment's observation divided componentwise by 255; the declared
`observation_space` has the original bounds divided by 255; and for uint8
pixel observations (bounds 0 and 255, observations inside them) every
returned component lies in `[0, 1]` and inside the declared space.  The
division is modelled over `ℚ`; float32 represents 0..255 exactly and its
division preserves these order bounds. -/
theorem floatObsEnv_normalizes_observations (w : FloatObsEnv)
    (seed : Option Nat) (options : Option String) (action : Nat)
    (hlow : ∀ x ∈ w.env.observation_space.low, x = 0)
    (hhigh : ∀ x ∈ w.env.observation_space.high, x = 255)
    (hr : w.env.observation_space.contains (w.env.reset seed options).obs)
    (hs : w.env.observation_space.contains (w.env.step action).obs) :
    (w.reset seed options).obs = normalizeObs (w.env.reset seed options).obs ∧
    (w.step action).obs = normalizeObs (w.env.step action).obs ∧
    w.observation_space.low =
      w.env.observation_space.low.map (fun v => v / 255) ∧
    w.observation_space.high =
      w.env.observation_space.high.map (fun v => v / 255) ∧
    (∀ v ∈ (w.reset seed options).obs, 0 ≤ v ∧ v ≤ 1) ∧
    (∀ v ∈ (w.step action).obs, 0 ≤ v ∧ v ≤ 1) ∧
    w.observation_space.contains (w.reset seed options).obs ∧
    w.observation_space.contains (w.step action).obs := by
  refine ⟨rfl, rfl, rfl, rfl, ?_, ?_, ?_, ?_⟩
  · exact fun v hv => normalizeObs_range _ _ hr hlow hhigh v hv
  · exact fun v hv => normalizeObs_range _ _ hs hlow hhigh v hv
  · exact contains_normalize _ _ hr
  · exact contains_normalize _ _ hs

/-- Witness for C1: on the concrete uint8-style environment, the wrapped
reset and step observations land inside the wrapper's declared
observation space. -/
theorem floatObsEnv_normalizes_observations_witness :
    (FloatObsEnv.mk exampleGymEnv).observation_space.contains
      ((FloatObsEnv.mk exampleGymEnv).reset (some 0) none).obs ∧
    (FloatObsEnv.mk exampleGymEnv).observation_space.contains
      ((FloatObsEnv.mk exampleGymEnv).step 3).obs :=
  ⟨(floatObsEnv_normalizes_observations ⟨exampleGymEnv⟩ (some 0) none 3
      (by decide) (by decide) ⟨rfl, rfl, by decide⟩ ⟨rfl, rfl, by decide⟩).2.2.2.2.2.2.1,
   (floatObsEnv_normalizes_observations ⟨exampleGymEnv⟩ (some 0) none 3
      (by decide) (by decide) ⟨rfl, rfl, by decide⟩ ⟨rfl, rfl, by decide⟩).2.2.2.2.2.2.2⟩

end PacmanRL
